import Mathlib

/-!
Verification development for the medication-alarm notification/alarm
lifecycle engine.  The definitions below are a shallow embedding of the
TypeScript source in `src/app/(tabs)/index.tsx` and
`src/app/(tabs)/add-medication.tsx`: stateful code becomes explicit state
passing over `AppState`, wall-clock instants are naturals counting
milliseconds, and the OS notification scheduler / audio layer are modelled
by the lists and association lists the code manipulates through them.
-/

namespace MedAlarm

/-! ## Time-string validation (the `timePattern` regex)

`add-medication.tsx` line 762 validates entered times with the regex
`^(0?[1-9]|1[0-2]):[0-5][0-9] (AM|PM)$`.  We transcribe the language of
that (anchored, backtracking-free up to fixed lengths) regex as a shape
match on the character list. -/

/-- Character range test, `lo ≤ c ≤ hi`. -/
def charBetween (lo hi c : Char) : Bool := lo ≤ c && c ≤ hi

/-- The minute part `[0-5][0-9]` of the regex. -/
def minuteChars (m1 m2 : Char) : Bool :=
  charBetween '0' '5' m1 && charBetween '0' '9' m2

/-- The marker part `(AM|PM)` of the regex: first char `A` or `P` (the
final `M` is matched by the caller).  Uppercase only, as in the source. -/
def ampmChar (p : Char) : Bool := p == 'A' || p == 'P'

/-- The time-format regex `^(0?[1-9]|1[0-2]):[0-5][0-9] (AM|PM)$` from
`addMedication` (add-medication.tsx line 762), as a predicate on the
string's characters.  A match has either a one-digit hour `[1-9]` or a
two-digit hour `0[1-9]` / `1[0-2]`. -/
def timePattern (s : String) : Bool :=
  match s.data with
  | [h, ':', m1, m2, ' ', p, 'M'] =>
      charBetween '1' '9' h && minuteChars m1 m2 && ampmChar p
  | [h1, h2, ':', m1, m2, ' ', p, 'M'] =>
      (h1 == '0' && charBetween '1' '9' h2 || h1 == '1' && charBetween '0' '2' h2)
        && minuteChars m1 m2 && ampmChar p
  | _ => false

/-! ## Time-string parsing (`scheduleNotifications` lines 520-529 / 1364-1373)

The scheduling loop does
`const [timePart, period] = time.split(' ')` and
`const [hours, minutes] = timePart.split(':').map(Number)`. -/

/-- JavaScript `String.split` with a single-character separator, on the
character list: splits into the (possibly empty) groups between
occurrences of the separator. -/
def splitOnChar (sep : Char) : List Char → List (List Char)
  | [] => [[]]
  | c :: cs =>
    if c == sep then [] :: splitOnChar sep cs
    else
      match splitOnChar sep cs with
      | [] => [[c]]
      | g :: gs => (c :: g) :: gs

/-- Accumulator for `jsNumberChars`: consume decimal digits; any other
character makes the whole string non-numeric (`NaN`, modelled `none`). -/
def digitsToNatAux : List Char → Nat → Option Nat
  | [], acc => some acc
  | c :: cs, acc =>
    if c.isDigit then digitsToNatAux cs (acc * 10 + (c.toNat - 48)) else none

/-- JavaScript `Number(s)` on a string expected to be a decimal natural:
`Number("") = 0`, a plain digit string parses (leading zeros allowed), and
anything else is `NaN`, modelled as `none`. -/
def jsNumberChars : List Char → Option Nat
  | [] => some 0
  | cs => digitsToNatAux cs 0

/-- The destructuring parse of a time string performed by
`scheduleNotifications`: split on the space into time part and period
(`const [timePart, period] = time.split(' ')`), split the time part on
`:` into hours and minutes and convert with `Number`.  A missing piece or
a non-numeric component yields an invalid date in the source, which is
never scheduled; we model that as `none`. -/
def parseTime (time : String) : Option (Nat × Nat × String) :=
  match splitOnChar ' ' time.data with
  | [] => none
  | timePart :: rest =>
    match splitOnChar ':' timePart with
    | hs :: ms :: _ =>
      match jsNumberChars hs, jsNumberChars ms with
      | some h, some m => some (h, m, String.mk (rest.headD []))
      | _, _ => none
    | _ => none

/-- The 24-hour conversion of `scheduleNotifications` (index.tsx lines
1367-1373): `PM` with hour other than 12 adds 12, `AM` with hour 12 maps
to 0, everything else keeps the hour.  The comparisons are the source's
case-sensitive `===` string comparisons. -/
def to24Hour (hours : Nat) (period : String) : Nat :=
  if period == "PM" && hours != 12 then hours + 12
  else if period == "AM" && hours == 12 then 0
  else hours

/-- Decidable semantic validity of a time string: it parses, the hour is
in 1..12, the minute in 0..59 and the marker is uppercase `AM` or `PM`. -/
def validParse (t : String) : Bool :=
  match parseTime t with
  | some (h, m, p) => (1 ≤ h && h ≤ 12 && m ≤ 59) && (p == "AM" || p == "PM")
  | none => false

/-- Minute-of-day denoted by a time string, through the source's parse and
24-hour conversion. -/
def timeMin (t : String) : Option Nat :=
  match parseTime t with
  | some (h, m, p) => some (to24Hour h p * 60 + m)
  | none => none

/-- `timeMin` with default 0, used to state ordering hypotheses. -/
def timeMinD (t : String) : Nat := (timeMin t).getD 0

theorem validParse_timeMin {t : String} (h : validParse t = true) :
    ∃ v, timeMin t = some v ∧ v ≤ 1439 := by
  unfold validParse at h
  unfold timeMin
  cases hp : parseTime t with
  | none => simp [hp] at h
  | some x =>
    obtain ⟨hh, m, p⟩ := x
    rw [hp] at h
    simp only [Bool.and_eq_true, Bool.or_eq_true, decide_eq_true_eq, beq_iff_eq] at h
    obtain ⟨⟨⟨h1, h2⟩, h3⟩, h4⟩ := h
    refine ⟨to24Hour hh p * 60 + m, rfl, ?_⟩
    have hb : to24Hour hh p ≤ 23 := by
      unfold to24Hour
      rcases h4 with h4 | h4 <;> subst h4 <;>
        simp only [Bool.and_eq_true, beq_iff_eq, bne_iff_ne] <;>
        split <;> (try split) <;> omega
    omega

/-! ## Data model -/

/-- A medication record as stored by the creation form
(`add-medication.tsx` lines 20-29, 770-779).  `startDate` is the creation
instant in milliseconds. -/
structure Medication where
  id : String
  name : String
  dose : String
  timesPerDay : Nat
  scheduledTimes : List String
  duration : Nat
  startDate : Nat
  imageUri : String := ""
deriving DecidableEq, Repr

/-- The `data` object carried inside a notification's content.  Fields a
given code path does not set are `none` / defaults, matching a JavaScript
object without those properties (reading them yields `undefined`). -/
structure Payload where
  medicationName : String := ""
  dose : String := ""
  scheduledTime : String := ""
  day : Nat := 0
  duration : Nat := 0
  type : String := ""
  shouldPlayAlarm : Bool := false
  isSnooze : Bool := false
  snoozeCount : Option Nat := none
  snoozeId : Option String := none
  isSnoozeWaiting : Bool := false
  notificationId : Option String := none
  originalNotificationId : Option String := none
deriving DecidableEq, Repr

/-- An entry of the OS scheduler (one `scheduleNotificationAsync` call):
identifier, fire instant in milliseconds, payload, whether it sounds, and
its action category. -/
structure ScheduledEntry where
  identifier : String
  fireAtMs : Nat
  payload : Payload
  sound : Bool
  categoryIdentifier : String
deriving DecidableEq, Repr

/-- Deferred actions armed via `setTimeout` in the source. -/
inductive TimerAction where
  | autoStop (nid : String)
  | startAlarm (nid : String)
  | snoozeUpgrade (nid : String) (p : Payload)
deriving DecidableEq, Repr

/-- An armed timer: absolute due instant plus the deferred action. -/
structure Timer where
  dueAtMs : Nat
  action : TimerAction
deriving DecidableEq, Repr

/-- The whole observable state the core manipulates: the persisted
medication list, the OS scheduler's pending entries, the identifiers of
currently presented notifications, the in-memory alarm pool (the
`notificationAlarms` map, the `activeSounds` set, and the `alarmSound`
state variable, sounds being numbered by a fresh-handle counter), the
sounds on which `stopAsync`/`unloadAsync` have been called, the armed
timers, and the user-facing alert dialogs surfaced so far. -/
structure AppState where
  medications : List Medication := []
  scheduled : List ScheduledEntry := []
  presented : List String := []
  notificationAlarms : List (String × Nat) := []
  activeSounds : List Nat := []
  stoppedSounds : List Nat := []
  unloadedSounds : List Nat := []
  alarmSound : Option Nat := none
  nextHandle : Nat := 0
  timers : List Timer := []
  alerts : List (String × String) := []
deriving DecidableEq, Repr

/-- `Alert.alert(title, message)`. -/
def pushAlert (a : String × String) (st : AppState) : AppState :=
  { st with alerts := a :: st.alerts }

/-- `Notifications.scheduleNotificationAsync` with an explicit identifier:
an entry with the same identifier is silently replaced. -/
def scheduleNotif (e : ScheduledEntry) (st : AppState) : AppState :=
  { st with scheduled :=
      st.scheduled.filter (fun q => q.identifier != e.identifier) ++ [e] }

/-- `Notifications.cancelScheduledNotificationAsync id`. -/
def cancelScheduled (i : String) (st : AppState) : AppState :=
  { st with scheduled := st.scheduled.filter (fun e => e.identifier != i) }

/-- `Notifications.dismissNotificationAsync id`: removes the entry from
the presented set without treating it as a user action. -/
def dismissNotif (i : String) (st : AppState) : AppState :=
  { st with presented := st.presented.filter (fun q => q != i) }

/-! ## Alarm Player Pool (index.tsx lines 1103-1158) -/

/-- `stopSpecificNotificationAlarm` (index.tsx lines 1130-1158): look the
sound up in the `notificationAlarms` map; when present, call
`stopAsync`/`unloadAsync` on it, delete it from the map and from
`activeSounds`, and clear `alarmSound` if it was this sound; when absent,
do nothing. -/
def stopSpecificNotificationAlarm (nid : String) (st : AppState) : AppState :=
  match List.lookup nid st.notificationAlarms with
  | some sound =>
      { st with
        stoppedSounds := sound :: st.stoppedSounds,
        unloadedSounds := sound :: st.unloadedSounds,
        notificationAlarms := st.notificationAlarms.filter (fun q => q.1 != nid),
        activeSounds := st.activeSounds.filter (fun s => s != sound),
        alarmSound := if st.alarmSound == some sound then none else st.alarmSound }
  | none => st

/-- Auto-stop ceiling for a real alert's alarm: 60 seconds (index.tsx
lines 1121-1124). -/
def autoStopRealMs : Nat := 60000

/-- Auto-stop ceiling for the test/demo alert: 30 seconds
(add-medication.tsx lines 749-752). -/
def autoStopTestMs : Nat := 30000

/-- `playNotificationAlarm` (index.tsx lines 1103-1128): first tear down
any existing alarm for this identifier, then create a fresh looping
full-volume sound, register it in the by-id map and the active set, update
`alarmSound`, and arm the 60-second auto-stop timer. -/
def playNotificationAlarm (now : Nat) (nid : String) (st : AppState) : AppState :=
  let s := stopSpecificNotificationAlarm nid st
  let h := s.nextHandle
  { s with
    notificationAlarms := (nid, h) :: s.notificationAlarms,
    activeSounds := h :: s.activeSounds,
    alarmSound := some h,
    nextHandle := h + 1,
    timers := ⟨now + autoStopRealMs, .autoStop nid⟩ :: s.timers }

/-- Firing a deferred timer action. -/
def fireTimer (now : Nat) (a : TimerAction) (st : AppState) : AppState :=
  match a with
  | .autoStop nid => stopSpecificNotificationAlarm nid st
  | .startAlarm nid => playNotificationAlarm now nid st
  | .snoozeUpgrade nid p =>
      let st1 := dismissNotif nid st
      let st2 := scheduleNotif
        { identifier := nid, fireAtMs := now + 1000, payload := p,
          sound := true, categoryIdentifier := "MEDICATION_REMINDER" } st1
      playNotificationAlarm now nid st2

/-! ## Snooze flow (`scheduleSnoozeNotification`, index.tsx lines 1190-1272) -/

/-- `originalData.snoozeCount || 0`: an absent snooze count reads as 0. -/
def jsSnoozeCount (p : Payload) : Nat := p.snoozeCount.getD 0

/-- The lineage identifier used by a snooze:
`originalData.snoozeId || ("snooze_" + medicationName + "_" + Date.now())`
(index.tsx line 1204). -/
def snoozeLineageId (now : Nat) (p : Payload) : String :=
  p.snoozeId.getD ("snooze_" ++ p.medicationName ++ "_" ++ toString now)

/-- The payload of the silent waiting notification scheduled on a
successful snooze (index.tsx lines 1220-1229): the original data spread
with the incremented count, the lineage id, and the waiting flags. -/
def snoozeWaitingPayload (data : Payload) (n : Nat) (sid nid : String) : Payload :=
  { data with
    type := "medication_reminder",
    shouldPlayAlarm := false,
    isSnooze := true,
    snoozeCount := some n,
    snoozeId := some sid,
    isSnoozeWaiting := true,
    originalNotificationId := some nid }

/-- The payload of the full alarm notification re-scheduled two minutes
later (index.tsx lines 1249-1258). -/
def snoozeAlarmPayload (data : Payload) (n : Nat) (sid nid : String) : Payload :=
  { data with
    type := "medication_reminder",
    shouldPlayAlarm := true,
    isSnooze := true,
    snoozeCount := some n,
    snoozeId := some sid,
    isSnoozeWaiting := false,
    originalNotificationId := some nid }

/-- The two-minute snooze delay (index.tsx line 1267). -/
def snoozeDelayMs : Nat := 2 * 60 * 1000

/-- The max-snoozes notice (index.tsx lines 1195-1199). -/
def maxSnoozeAlert : String × String :=
  ("⚠️ Maximum Snoozes Reached",
   "You have reached the maximum number of snoozes (7) for this medication reminder. Please take your medication now.")

/-- Outcome of a snooze attempt. -/
inductive SnoozeOutcome where
  | maxReached
  | snoozed
deriving DecidableEq, Repr

/-- `scheduleSnoozeNotification` (index.tsx lines 1190-1272): when the
current count has reached 7, surface the max-snoozes notice and return
without rescheduling; otherwise increment the count, dismiss the current
notification, schedule (same identifier, replace) the silent waiting
notification one second out, and arm the two-minute timer that replaces
it with the full alarm carrying the incremented count. -/
def scheduleSnoozeNotification (now : Nat) (originalData : Payload)
    (currentNotificationId : String) (st : AppState) : AppState × SnoozeOutcome :=
  let currentSnoozeCount := jsSnoozeCount originalData
  if 7 ≤ currentSnoozeCount then
    (pushAlert maxSnoozeAlert st, .maxReached)
  else
    let newSnoozeCount := currentSnoozeCount + 1
    let sid := snoozeLineageId now originalData
    let st1 := dismissNotif currentNotificationId st
    let st2 := scheduleNotif
      { identifier := currentNotificationId,
        fireAtMs := now + 1000,
        payload := snoozeWaitingPayload originalData newSnoozeCount sid currentNotificationId,
        sound := false,
        categoryIdentifier := "MEDICATION_SNOOZED" } st1
    ({ st2 with timers :=
        ⟨now + snoozeDelayMs,
         .snoozeUpgrade currentNotificationId
           (snoozeAlarmPayload originalData newSnoozeCount sid currentNotificationId)⟩
          :: st2.timers }, .snoozed)

/-- The `SNOOZE_ACTION` branch of the response listener (index.tsx lines
1038-1045): stop this notification's alarm, then run the snooze flow. -/
def snoozeAction (now : Nat) (data : Payload) (nid : String) (st : AppState) :
    AppState × SnoozeOutcome :=
  scheduleSnoozeNotification now data nid (stopSpecificNotificationAlarm nid st)

/-- The full-alarm payload a successful snooze puts back in front of the
user, i.e. the payload the next snooze press will act on; a rejected
snooze leaves the payload as it is. -/
def snoozeStepPayload (now : Nat) (nid : String) (p : Payload) : Payload :=
  if 7 ≤ jsSnoozeCount p then p
  else snoozeAlarmPayload p (jsSnoozeCount p + 1) (snoozeLineageId now p) nid

/-- The payload after `n` snooze presses along one lineage. -/
def lineagePayload (now : Nat) (nid : String) (p0 : Payload) : Nat → Payload
  | 0 => p0
  | n + 1 => snoozeStepPayload now nid (lineagePayload now nid p0 n)

/-! ## Action Dispatcher: the STOP branch (index.tsx lines 1014-1037) -/

/-- The lineage-severing loop of the STOP/DISMISS branches: fetch all
scheduled notifications, and cancel (by identifier) each one whose
payload carries the given `snoozeId`. -/
def cancelLineage (sid : String) (st : AppState) : AppState :=
  ((st.scheduled.filter (fun e => e.payload.snoozeId == some sid)).map
      (fun e => e.identifier)).foldl (fun s i => cancelScheduled i s) st

/-- The confirmation surfaced by the STOP branch (index.tsx lines
1032-1036). -/
def stopConfirmAlert (name : String) : String × String :=
  ("✅ Alarm Stopped",
   "Medication reminder for " ++ name ++ " has been stopped completely.")

/-- The `STOP_ACTION` branch of the response listener (index.tsx lines
1014-1037): stop this notification's alarm, dismiss the presented entry,
cancel every scheduled entry sharing the payload's `snoozeId` (only when
the payload carries one), and surface the confirmation. -/
def stopAction (data : Payload) (nid : String) (st : AppState) : AppState :=
  let s1 := stopSpecificNotificationAlarm nid st
  let s2 := dismissNotif nid s1
  let s3 :=
    match data.snoozeId with
    | some sid => cancelLineage sid s2
    | none => s2
  pushAlert (stopConfirmAlert data.medicationName) s3

/-! ## Schedule Expander (`scheduleNotifications`, index.tsx lines
1359-1417 = add-medication.tsx lines 515-573) -/

/-- One day in milliseconds. -/
def dayMs : Nat := 86400000

/-- Start of the current local day: `new Date()` with
`setHours(h, m, 0, 0)` pins the time-of-day, keeping the date. -/
def dayStartMs (now : Nat) : Nat := now / dayMs * dayMs

/-- The fire instant for day index `day` and minute-of-day `v`:
`notificationDate` is now's date plus `day` days at that time-of-day. -/
def fireOf (now day v : Nat) : Nat := dayStartMs now + day * dayMs + v * 60000

/-- The notification identifier
`"medication_" + medication.id + "_" + day + "_" + time` (line 1386). -/
def notifIdOf (med : Medication) (day : Nat) (time : String) : String :=
  "medication_" ++ med.id ++ "_" ++ toString day ++ "_" ++ time

/-- The payload built by `scheduleNotifications` (lines 1397-1407).  It
carries no `snoozeId` and no `snoozeCount`. -/
def expanderPayload (med : Medication) (day : Nat) (time : String) : Payload :=
  { medicationName := med.name,
    dose := med.dose,
    scheduledTime := time,
    day := day + 1,
    duration := med.duration,
    type := "medication_reminder",
    shouldPlayAlarm := true,
    isSnooze := false,
    notificationId := some (notifIdOf med day time) }

/-- The scheduler entry for one (day, time) pair. -/
def expanderEntry (med : Medication) (day : Nat) (time : String) (fire : Nat) :
    ScheduledEntry :=
  { identifier := notifIdOf med day time,
    fireAtMs := fire,
    payload := expanderPayload med day time,
    sound := true,
    categoryIdentifier := "MEDICATION_REMINDER" }

/-- The body of the inner loop of `scheduleNotifications`: parse the time
string, convert to 24-hour form, compute the candidate instant, and
schedule it only if it is strictly in the future (an unparseable string
gives an invalid date, which is never scheduled). -/
def candidateOf (now : Nat) (med : Medication) (day : Nat) (time : String) :
    Option ScheduledEntry :=
  match parseTime time with
  | none => none
  | some (h, m, period) =>
    let hour24 := to24Hour h period
    let fire := fireOf now day (hour24 * 60 + m)
    if now < fire then some (expanderEntry med day time fire) else none

/-- `scheduleNotifications` with the default `isSnooze = false` arguments
used by every caller: days as the outer loop over `[0, duration)`, times
as the inner loop in entry order, scheduling each strictly-future
candidate. -/
def scheduleNotifications (now : Nat) (med : Medication) : List ScheduledEntry :=
  (List.range med.duration).flatMap (fun day =>
    med.scheduledTimes.filterMap (fun time => candidateOf now med day time))

/-- The (day, time) enumeration the expander walks: days outer in
`[0, duration)`, times inner in the user's entry order. -/
def candPairs (med : Medication) : List (Nat × String) :=
  (List.range med.duration).flatMap (fun day =>
    med.scheduledTimes.map (fun time => (day, time)))

/-- Whether the candidate instant of a (day, time) pair is strictly in the
future at construction time. -/
def isFuture (now : Nat) (p : Nat × String) : Bool :=
  decide (now < fireOf now p.1 (timeMinD p.2))

/-- The number of (day, time) pairs whose candidate instant is not
strictly in the future. -/
def nonFutureCount (now : Nat) (med : Medication) : Nat :=
  (candPairs med).countP (fun p => !isFuture now p)

/-! ## `addMedication` (add-medication.tsx lines 755-797) -/

/-- The form state feeding `addMedication`. -/
structure FormData where
  name : String := ""
  dose : String := ""
  timesPerDay : Nat := 1
  times : List String := []
  duration : Nat := 7
  imageUri : String := ""
deriving DecidableEq, Repr

/-- Result of an `addMedication` submission. -/
inductive AddResult where
  | missingFields
  | invalidTime
  | success
deriving DecidableEq, Repr

/-- `addMedication` (add-medication.tsx lines 755-797): reject when any
required field is empty; reject when any entered time fails `timePattern`
(whole-batch validation, before any side effect); otherwise build the
medication record, save it, and bulk-insert the expanded schedule. -/
def addMedication (now : Nat) (form : FormData) (st : AppState) :
    AddResult × AppState :=
  if form.name == "" || form.dose == "" || form.times.any (fun t => t == "") then
    (.missingFields, pushAlert ("Error", "Please fill in all fields") st)
  else if form.times.any (fun t => !timePattern t) then
    (.invalidTime,
     pushAlert ("Error", "Please set all medication times using the time pickers") st)
  else
    let med : Medication :=
      { id := toString now,
        name := form.name,
        dose := form.dose,
        timesPerDay := form.timesPerDay,
        scheduledTimes := form.times.filter (fun t => t != ""),
        duration := form.duration,
        startDate := now,
        imageUri := form.imageUri }
    let st1 := { st with medications := st.medications ++ [med] }
    let st2 := (scheduleNotifications now med).foldl (fun s e => scheduleNotif e s) st1
    (.success, pushAlert ("Success", "Medication reminder added successfully!") st2)

/-! ## Test notification (`testNotification`, add-medication.tsx lines
716-753) -/

/-- The ad hoc identifier `'test_notification_' + Date.now()`. -/
def testNotifId (now : Nat) : String := "test_notification_" ++ toString now

/-- `testNotification`: schedule the demo alert one second out, arm the
alarm start one second out, and arm the 30-second auto-stop for it. -/
def testNotification (now : Nat) (st : AppState) : AppState :=
  let nid := testNotifId now
  let st1 := scheduleNotif
    { identifier := nid,
      fireAtMs := now + 1000,
      payload :=
        { type := "medication_reminder",
          medicationName := "Test Medicine",
          dose := "1 tablet",
          scheduledTime := "Now",
          day := 1,
          duration := 1,
          shouldPlayAlarm := true,
          notificationId := some nid },
      sound := true,
      categoryIdentifier := "MEDICATION_REMINDER" } st
  { st1 with timers :=
      ⟨now + 1000, .startAlarm nid⟩ ::
      ⟨now + autoStopTestMs, .autoStop nid⟩ :: st1.timers }

/-! ## Dismissal Watchdog -/

/-- Poll cadence of the home-screen watchdog: 300 ms (index.tsx line
998). -/
def pollIntervalMs : Nat := 300

/-- Total polling duration of the home-screen watchdog: 30 s (index.tsx
line 1004). -/
def dismissalCheckDurationMs : Nat := 30000

/-- Number of polls the home-screen watchdog can run before the 30-second
cleanup clears its interval. -/
def watchdogPollCount : Nat := dismissalCheckDurationMs / pollIntervalMs

/-- The stop events emitted by the home-screen watchdog's poll loop
(index.tsx lines 979-998) on a trace of presence observations
(`true` = still presented): each poll checks `listPresented()`; on the
first poll where the alert is absent it fires the stop and clears the
interval, so no later poll runs.  The result lists the poll indices at
which the stop fired. -/
def watchdogStops : List Bool → List Nat
  | [] => []
  | b :: rest => if b then (watchdogStops rest).map (fun i => i + 1) else [0]

/-- The home-screen watchdog run: at most `watchdogPollCount` polls. -/
def watchdogRun (obs : List Bool) : List Nat :=
  watchdogStops (obs.take watchdogPollCount)

/-- What a watchdog trigger does (index.tsx line 995): stop the alarm for
that identifier — and nothing else. -/
def watchdogTriggerAction (nid : String) (st : AppState) : AppState :=
  stopSpecificNotificationAlarm nid st

/-- The check offsets of the add-medication screen's watchdog
(add-medication.tsx lines 86-91): single checks at 1 s, 2 s, 3 s, 5 s. -/
def addMedCheckOffsetsMs : List Nat := [1000, 2000, 3000, 5000]

/-- The stop events of the add-medication watchdog: each of the four
timeouts independently checks presence and fires the stop when the alert
is absent; a firing does not cancel the remaining checks. -/
def addMedWatchdogRun (obs : List Bool) : List Nat :=
  (List.range addMedCheckOffsetsMs.length).filter (fun i => obs.getD i true == false)

/-! ## Helper lemmas -/

theorem lookup_eq_none_filter {a : String} {l : List (String × Nat)}
    (h : List.lookup a l = none) : l.filter (fun q => q.1 != a) = l := by
  induction l with
  | nil => rfl
  | cons q l ih =>
    rw [List.lookup] at h
    cases hk : a == q.1 with
    | true => rw [hk] at h; cases h
    | false =>
      rw [hk] at h
      have hne : q.1 != a := by
        simp only [bne_iff_ne]
        intro he
        rw [he] at hk
        simp at hk
      simp [List.filter_cons, hne, ih h]

theorem lookup_filter_self (a : String) (l : List (String × Nat)) :
    List.lookup a (l.filter (fun q => q.1 != a)) = none := by
  induction l with
  | nil => rfl
  | cons q l ih =>
    by_cases hk : q.1 = a
    · simp [List.filter_cons, hk, ih]
    · have : (q.1 != a) = true := by simp [bne_iff_ne, hk]
      simp only [List.filter_cons, this, if_true]
      rw [List.lookup]
      have : (a == q.1) = false := by simp [Ne.symm hk]
      simp [this, ih]

theorem key_not_mem_filter (a : String) (l : List (String × Nat)) :
    a ∉ (l.filter (fun q => q.1 != a)).map Prod.fst := by
  intro hmem
  obtain ⟨q, hq, hfst⟩ := List.mem_map.mp hmem
  have := List.of_mem_filter hq
  simp [bne_iff_ne, hfst] at this

/-- The alarms map after a teardown is always the original map with the
key removed (a no-op when the key is absent). -/
theorem stopSpecific_alarms (nid : String) (st : AppState) :
    (stopSpecificNotificationAlarm nid st).notificationAlarms
      = st.notificationAlarms.filter (fun q => q.1 != nid) := by
  unfold stopSpecificNotificationAlarm
  cases h : List.lookup nid st.notificationAlarms with
  | some s => simp
  | none => simp [lookup_eq_none_filter h]

theorem stopSpecific_scheduled (nid : String) (st : AppState) :
    (stopSpecificNotificationAlarm nid st).scheduled = st.scheduled := by
  unfold stopSpecificNotificationAlarm
  cases List.lookup nid st.notificationAlarms <;> simp

theorem stopSpecific_presented (nid : String) (st : AppState) :
    (stopSpecificNotificationAlarm nid st).presented = st.presented := by
  unfold stopSpecificNotificationAlarm
  cases List.lookup nid st.notificationAlarms <;> simp

theorem stopSpecific_medications (nid : String) (st : AppState) :
    (stopSpecificNotificationAlarm nid st).medications = st.medications := by
  unfold stopSpecificNotificationAlarm
  cases List.lookup nid st.notificationAlarms <;> simp

theorem stopSpecific_timers (nid : String) (st : AppState) :
    (stopSpecificNotificationAlarm nid st).timers = st.timers := by
  unfold stopSpecificNotificationAlarm
  cases List.lookup nid st.notificationAlarms <;> simp

theorem stopSpecific_alerts (nid : String) (st : AppState) :
    (stopSpecificNotificationAlarm nid st).alerts = st.alerts := by
  unfold stopSpecificNotificationAlarm
  cases List.lookup nid st.notificationAlarms <;> simp

theorem stopSpecific_nextHandle (nid : String) (st : AppState) :
    (stopSpecificNotificationAlarm nid st).nextHandle = st.nextHandle := by
  unfold stopSpecificNotificationAlarm
  cases List.lookup nid st.notificationAlarms <;> simp

theorem stopSpecific_lookup_self (nid : String) (st : AppState) :
    List.lookup nid (stopSpecificNotificationAlarm nid st).notificationAlarms = none := by
  rw [stopSpecific_alarms]
  exact lookup_filter_self nid st.notificationAlarms

theorem stopSpecific_stops (nid : String) (st : AppState) {h : Nat}
    (hl : List.lookup nid st.notificationAlarms = some h) :
    h ∈ (stopSpecificNotificationAlarm nid st).stoppedSounds
      ∧ h ∈ (stopSpecificNotificationAlarm nid st).unloadedSounds := by
  unfold stopSpecificNotificationAlarm
  rw [hl]
  exact ⟨List.mem_cons_self _ _, List.mem_cons_self _ _⟩

theorem play_alarms (now : Nat) (nid : String) (st : AppState) :
    (playNotificationAlarm now nid st).notificationAlarms
      = (nid, st.nextHandle) :: st.notificationAlarms.filter (fun q => q.1 != nid) := by
  unfold playNotificationAlarm
  simp [stopSpecific_alarms, stopSpecific_nextHandle]

theorem play_nextHandle (now : Nat) (nid : String) (st : AppState) :
    (playNotificationAlarm now nid st).nextHandle = st.nextHandle + 1 := by
  unfold playNotificationAlarm
  simp [stopSpecific_nextHandle]

theorem play_stopped (now : Nat) (nid : String) (st : AppState) :
    (playNotificationAlarm now nid st).stoppedSounds
      = (stopSpecificNotificationAlarm nid st).stoppedSounds := by
  unfold playNotificationAlarm
  simp

theorem countP_filter_key_zero (nid : String) (l : List (String × Nat)) :
    (l.filter (fun q => q.1 != nid)).countP (fun q => q.1 == nid) = 0 := by
  rw [List.countP_eq_zero]
  intro q hq
  have := List.of_mem_filter hq
  simpa using this

theorem keys_filter_nodup {l : List (String × Nat)} (nid : String)
    (h : (l.map Prod.fst).Nodup) :
    ((l.filter (fun q => q.1 != nid)).map Prod.fst).Nodup :=
  h.sublist ((List.filter_sublist l).map Prod.fst)

theorem play_keys_nodup (now : Nat) (nid : String) (st : AppState)
    (h : (st.notificationAlarms.map Prod.fst).Nodup) :
    ((playNotificationAlarm now nid st).notificationAlarms.map Prod.fst).Nodup := by
  rw [play_alarms]
  simp only [List.map_cons, List.nodup_cons]
  exact ⟨key_not_mem_filter nid st.notificationAlarms, keys_filter_nodup nid h⟩

/-- C2: starting a player twice in a row for the same identifier leaves
exactly one live handle registered under that identifier — the fresh one —
while the first handle has been stopped (and unloaded); the by-id map
still has pairwise-distinct identifiers, so the pool holds at most one
handle per identifier. -/
theorem player_pool_idempotent_restart (now1 now2 : Nat) (nid : String) (st : AppState)
    (hnodup : (st.notificationAlarms.map Prod.fst).Nodup) :
    List.lookup nid
        (playNotificationAlarm now2 nid (playNotificationAlarm now1 nid st)).notificationAlarms
      = some (st.nextHandle + 1)
    ∧ st.nextHandle
        ∈ (playNotificationAlarm now2 nid (playNotificationAlarm now1 nid st)).stoppedSounds
    ∧ st.nextHandle + 1 ≠ st.nextHandle
    ∧ (playNotificationAlarm now2 nid (playNotificationAlarm now1 nid st)).notificationAlarms.countP
        (fun q => q.1 == nid) = 1
    ∧ (((playNotificationAlarm now2 nid (playNotificationAlarm now1 nid st)).notificationAlarms.map
        Prod.fst)).Nodup := by
  have halarms1 := play_alarms now1 nid st
  have hlook1 : List.lookup nid
      (playNotificationAlarm now1 nid st).notificationAlarms = some st.nextHandle := by
    rw [halarms1, List.lookup]
    simp
  refine ⟨?_, ?_, by omega, ?_, ?_⟩
  · rw [play_alarms, List.lookup, play_nextHandle]
    simp
  · rw [play_stopped]
    exact (stopSpecific_stops nid _ hlook1).1
  · rw [play_alarms]
    rw [List.countP_cons]
    simp [countP_filter_key_zero]
  · exact play_keys_nodup _ _ _ (play_keys_nodup _ _ _ hnodup)

/-- Witness for `player_pool_idempotent_restart` at a concrete state. -/
theorem player_pool_idempotent_restart_witness :
    ((AppState.mk [] [] [] [("x", 0)] [0] [] [] (some 0) 1 [] []).notificationAlarms.map
      Prod.fst).Nodup
    ∧ (List.lookup "x"
        (playNotificationAlarm 5 "x" (playNotificationAlarm 3 "x"
          (AppState.mk [] [] [] [("x", 0)] [0] [] [] (some 0) 1 [] []))).notificationAlarms
        = some 2
    ∧ 1 ∈ (playNotificationAlarm 5 "x" (playNotificationAlarm 3 "x"
          (AppState.mk [] [] [] [("x", 0)] [0] [] [] (some 0) 1 [] []))).stoppedSounds
    ∧ 1 + 1 ≠ 1
    ∧ (playNotificationAlarm 5 "x" (playNotificationAlarm 3 "x"
          (AppState.mk [] [] [] [("x", 0)] [0] [] [] (some 0) 1 [] []))).notificationAlarms.countP
        (fun q => q.1 == "x") = 1
    ∧ (((playNotificationAlarm 5 "x" (playNotificationAlarm 3 "x"
          (AppState.mk [] [] [] [("x", 0)] [0] [] [] (some 0) 1 [] []))).notificationAlarms.map
        Prod.fst)).Nodup) :=
  ⟨by decide, player_pool_idempotent_restart 3 5 "x" _ (by decide)⟩

/-- C7: the watchdog-triggered implicit stop tears down only the audio
handle for the detected identifier: the scheduler entries, the presented
set, the stored medications, the armed timers and the surfaced alerts are
all left unchanged, the handle (if any) is stopped and the identifier no
longer maps to a live handle. -/
theorem watchdog_stop_frame (nid : String) (st : AppState) :
    (watchdogTriggerAction nid st).scheduled = st.scheduled
    ∧ (watchdogTriggerAction nid st).presented = st.presented
    ∧ (watchdogTriggerAction nid st).medications = st.medications
    ∧ (watchdogTriggerAction nid st).timers = st.timers
    ∧ (watchdogTriggerAction nid st).alerts = st.alerts
    ∧ List.lookup nid (watchdogTriggerAction nid st).notificationAlarms = none
    ∧ (∀ h, List.lookup nid st.notificationAlarms = some h →
        h ∈ (watchdogTriggerAction nid st).stoppedSounds) := by
  refine ⟨stopSpecific_scheduled nid st, stopSpecific_presented nid st,
    stopSpecific_medications nid st, stopSpecific_timers nid st,
    stopSpecific_alerts nid st, stopSpecific_lookup_self nid st, ?_⟩
  intro h hl
  exact (stopSpecific_stops nid st hl).1

/-- Witness for `watchdog_stop_frame` at a concrete state. -/
theorem watchdog_stop_frame_witness :
    (watchdogTriggerAction "y" (AppState.mk [] [] ["y"] [("y", 4)] [4] [] [] none 5 [] [])).scheduled
        = (AppState.mk [] [] ["y"] [("y", 4)] [4] [] [] none 5 [] []).scheduled
    ∧ (watchdogTriggerAction "y" (AppState.mk [] [] ["y"] [("y", 4)] [4] [] [] none 5 [] [])).presented
        = (AppState.mk [] [] ["y"] [("y", 4)] [4] [] [] none 5 [] []).presented
    ∧ (watchdogTriggerAction "y" (AppState.mk [] [] ["y"] [("y", 4)] [4] [] [] none 5 [] [])).medications
        = (AppState.mk [] [] ["y"] [("y", 4)] [4] [] [] none 5 [] []).medications
    ∧ (watchdogTriggerAction "y" (AppState.mk [] [] ["y"] [("y", 4)] [4] [] [] none 5 [] [])).timers
        = (AppState.mk [] [] ["y"] [("y", 4)] [4] [] [] none 5 [] []).timers
    ∧ (watchdogTriggerAction "y" (AppState.mk [] [] ["y"] [("y", 4)] [4] [] [] none 5 [] [])).alerts
        = (AppState.mk [] [] ["y"] [("y", 4)] [4] [] [] none 5 [] []).alerts
    ∧ List.lookup "y"
        (watchdogTriggerAction "y" (AppState.mk [] [] ["y"] [("y", 4)] [4] [] [] none 5 [] [])).notificationAlarms
        = none
    ∧ (∀ h, List.lookup "y" (AppState.mk [] [] ["y"] [("y", 4)] [4] [] [] none 5 [] []).notificationAlarms
          = some h →
        h ∈ (watchdogTriggerAction "y" (AppState.mk [] [] ["y"] [("y", 4)] [4] [] [] none 5 [] [])).stoppedSounds) :=
  watchdog_stop_frame "y" _

/-- C9: every start of an alarm player arms a deferred auto-stop for that
identifier 60 seconds out; the test/demo flow arms a deferred auto-stop
for the test identifier 30 seconds out; and firing an auto-stop timer for
an identifier leaves no live handle registered under it. -/
theorem auto_stop_ceiling (now : Nat) (nid : String) (st : AppState) :
    Timer.mk (now + autoStopRealMs) (.autoStop nid)
        ∈ (playNotificationAlarm now nid st).timers
    ∧ autoStopRealMs = 60000
    ∧ Timer.mk (now + autoStopTestMs) (.autoStop (testNotifId now))
        ∈ (testNotification now st).timers
    ∧ autoStopTestMs = 30000
    ∧ (∀ s : AppState,
        List.lookup nid (fireTimer now (.autoStop nid) s).notificationAlarms = none) := by
  refine ⟨?_, rfl, ?_, rfl, ?_⟩
  · unfold playNotificationAlarm
    exact List.mem_cons_self _ _
  · unfold testNotification
    exact List.mem_cons_of_mem _ (List.mem_cons_self _ _)
  · intro s
    exact stopSpecific_lookup_self nid s

/-- Witness for `auto_stop_ceiling` at a concrete instant and state. -/
theorem auto_stop_ceiling_witness :
    Timer.mk (7 + autoStopRealMs) (.autoStop "z")
        ∈ (playNotificationAlarm 7 "z" (AppState.mk [] [] [] [] [] [] [] none 0 [] [])).timers
    ∧ autoStopRealMs = 60000
    ∧ Timer.mk (7 + autoStopTestMs) (.autoStop (testNotifId 7))
        ∈ (testNotification 7 (AppState.mk [] [] [] [] [] [] [] none 0 [] [])).timers
    ∧ autoStopTestMs = 30000
    ∧ (∀ s : AppState,
        List.lookup "z" (fireTimer 7 (.autoStop "z") s).notificationAlarms = none) :=
  auto_stop_ceiling 7 "z" _

/-- C8 counterexample: time parsing is case-sensitive, not
case-insensitive.  The lowercase marker string "8:30 pm" is rejected by
the validation regex, and the 24-hour conversion leaves a lowercase "pm"
hour unchanged (8 instead of the claimed 20). -/
theorem time_parse_lowercase_rejected :
    timePattern "8:30 pm" = false
    ∧ to24Hour 8 "pm" = 8
    ∧ to24Hour 8 "pm" ≠ 20
    ∧ timePattern "8:30 PM" = true := by decide

/-- C8 as amended: parsing accepts "H:MM AM/PM" with uppercase markers
only, and converts them correctly (12 AM to 0, 12 PM to 12, PM below 12
adds 12, AM otherwise keeps the hour); lowercase markers are rejected by
the pattern and left unconverted. -/
theorem time_parse_uppercase_conversion (h : Nat) (h1 : 1 ≤ h) (h11 : h ≤ 11) :
    to24Hour h "PM" = h + 12
    ∧ to24Hour 12 "PM" = 12
    ∧ to24Hour 12 "AM" = 0
    ∧ to24Hour h "AM" = h
    ∧ to24Hour h "pm" = h
    ∧ to24Hour h "am" = h
    ∧ timePattern "8:30 pm" = false
    ∧ timePattern "8:30 PM" = true := by
  refine ⟨?_, by decide, by decide, ?_, by simp [to24Hour], by simp [to24Hour],
    by decide, by decide⟩
  · unfold to24Hour
    have : (h != 12) = true := by simp; omega
    simp [this]
  · unfold to24Hour
    have : (h == 12) = false := by simp; omega
    simp [this]

/-- Witness for `time_parse_uppercase_conversion` at hour 8. -/
theorem time_parse_uppercase_conversion_witness :
    (1 ≤ 8 ∧ 8 ≤ 11)
    ∧ (to24Hour 8 "PM" = 8 + 12
    ∧ to24Hour 12 "PM" = 12
    ∧ to24Hour 12 "AM" = 0
    ∧ to24Hour 8 "AM" = 8
    ∧ to24Hour 8 "pm" = 8
    ∧ to24Hour 8 "am" = 8
    ∧ timePattern "8:30 pm" = false
    ∧ timePattern "8:30 PM" = true) :=
  ⟨by decide, time_parse_uppercase_conversion 8 (by decide) (by decide)⟩

/-! ## Watchdog theorems (C6) -/

theorem watchdogStops_length_le (obs : List Bool) :
    (watchdogStops obs).length ≤ 1 := by
  induction obs with
  | nil => simp [watchdogStops]
  | cons b rest ih =>
    unfold watchdogStops
    split
    · simpa using ih
    · simp

theorem watchdogStops_first (obs : List Bool) (i : Nat)
    (hob : obs.getD i true = false)
    (hbefore : ∀ j, j < i → obs.getD j true = true) :
    watchdogStops obs = [i] := by
  induction obs generalizing i with
  | nil => simp [List.getD] at hob
  | cons b rest ih =>
    cases i with
    | zero =>
      simp only [List.getD_cons_zero] at hob
      simp [watchdogStops, hob]
    | succ i' =>
      have hb : b = true := by
        have := hbefore 0 (Nat.succ_pos i')
        simpa using this
      simp only [List.getD_cons_succ] at hob
      have hrest : watchdogStops rest = [i'] := by
        refine ih i' hob ?_
        intro j hj
        have := hbefore (j + 1) (Nat.succ_lt_succ hj)
        simpa using this
      simp [watchdogStops, hb, hrest]

/-- C6 counterexample: the add-medication screen's watchdog violates the
claim as stated.  On a trace where the alert is already gone at the first
check it fires the stop at every one of its four checks — the remaining
polls are not cancelled once triggered, so the stop double-fires — its
3 s to 5 s gap is 2000 ms (outside the claimed 300-1000 ms cadence), and
its last poll is at 5000 ms (short of the claimed 10-30 s window). -/
theorem watchdog_addmed_double_fire :
    addMedWatchdogRun [false, false, false, false] = [0, 1, 2, 3]
    ∧ 1 < (addMedWatchdogRun [false, false, false, false]).length
    ∧ addMedCheckOffsetsMs.getD 3 0 - addMedCheckOffsetsMs.getD 2 0 = 2000
    ∧ ¬(addMedCheckOffsetsMs.getD 3 0 - addMedCheckOffsetsMs.getD 2 0 ≤ 1000)
    ∧ addMedCheckOffsetsMs.getD 3 0 < 10000 := by decide

/-- C6 as amended (the home-screen watchdog): it polls every 300 ms
(within 300-1000 ms) for 30 s total (within 10-30 s); on the first poll
where the alert is no longer presented the stop fires for exactly that
poll and the remaining polls are cancelled, so every trace produces at
most one stop; and the trigger action itself leaves no live handle for
the identifier, with no dispatcher event involved. -/
theorem watchdog_home_single_fire (obs : List Bool) (i : Nat)
    (hi : i < watchdogPollCount)
    (hob : obs.getD i true = false)
    (hbefore : ∀ j, j < i → obs.getD j true = true) :
    watchdogRun obs = [i]
    ∧ (∀ obs2 : List Bool, (watchdogRun obs2).length ≤ 1)
    ∧ pollIntervalMs = 300 ∧ 300 ≤ pollIntervalMs ∧ pollIntervalMs ≤ 1000
    ∧ dismissalCheckDurationMs = 30000
    ∧ 10000 ≤ dismissalCheckDurationMs ∧ dismissalCheckDurationMs ≤ 30000
    ∧ (∀ st : AppState, ∀ nid : String,
        List.lookup nid (watchdogTriggerAction nid st).notificationAlarms = none) := by
  refine ⟨?_, fun obs2 => watchdogStops_length_le _, rfl, by decide, by decide, rfl,
    by decide, by decide, fun st nid => stopSpecific_lookup_self nid st⟩
  unfold watchdogRun
  refine watchdogStops_first _ i ?_ ?_
  · rw [List.getD_eq_getElem?_getD, List.getElem?_take_of_lt hi,
      ← List.getD_eq_getElem?_getD]
    exact hob
  · intro j hj
    rw [List.getD_eq_getElem?_getD, List.getElem?_take_of_lt (Nat.lt_trans hj hi),
      ← List.getD_eq_getElem?_getD]
    exact hbefore j hj

/-- Witness for `watchdog_home_single_fire`: the alert disappears at the
second poll. -/
theorem watchdog_home_single_fire_witness :
    (1 < watchdogPollCount
      ∧ [true, false].getD 1 true = false
      ∧ (∀ j, j < 1 → [true, false].getD j true = true))
    ∧ (watchdogRun [true, false] = [1]
    ∧ (∀ obs2 : List Bool, (watchdogRun obs2).length ≤ 1)
    ∧ pollIntervalMs = 300 ∧ 300 ≤ pollIntervalMs ∧ pollIntervalMs ≤ 1000
    ∧ dismissalCheckDurationMs = 30000
    ∧ 10000 ≤ dismissalCheckDurationMs ∧ dismissalCheckDurationMs ≤ 30000
    ∧ (∀ st : AppState, ∀ nid : String,
        List.lookup nid (watchdogTriggerAction nid st).notificationAlarms = none)) :=
  ⟨⟨by decide, by decide, by decide⟩,
   watchdog_home_single_fire [true, false] 1 (by decide) (by decide) (by decide)⟩

/-- C3: whole-batch validation.  If any entered time string fails the
validation regex, `addMedication` rejects the submission: it does not
succeed, creates zero scheduler entries, and saves no medication. -/
theorem add_medication_rejects_bad_time (now : Nat) (form : FormData) (st : AppState)
    (t : String) (ht : t ∈ form.times) (hbad : timePattern t = false) :
    (addMedication now form st).1 ≠ .success
    ∧ ((addMedication now form st).2).scheduled = st.scheduled
    ∧ ((addMedication now form st).2).medications = st.medications := by
  unfold addMedication
  by_cases h1 : (form.name == "" || form.dose == "" || form.times.any fun s => s == "") = true
  · rw [if_pos h1]
    refine ⟨by simp, rfl, rfl⟩
  · rw [if_neg h1]
    have h2 : (form.times.any fun s => !timePattern s) = true :=
      List.any_eq_true.mpr ⟨t, ht, by simp [hbad]⟩
    rw [if_pos h2]
    refine ⟨by simp, rfl, rfl⟩

/-- Witness for `add_medication_rejects_bad_time`: the malformed time
string "13:00 AM" blocks the whole submission. -/
theorem add_medication_rejects_bad_time_witness :
    ("13:00 AM" ∈ ["8:00 AM", "13:00 AM"] ∧ timePattern "13:00 AM" = false)
    ∧ ((addMedication 11
          (FormData.mk "Aspirin" "1 tablet" 2 ["8:00 AM", "13:00 AM"] 2 "")
          (AppState.mk [] [] [] [] [] [] [] none 0 [] [])).1 ≠ .success
    ∧ ((addMedication 11
          (FormData.mk "Aspirin" "1 tablet" 2 ["8:00 AM", "13:00 AM"] 2 "")
          (AppState.mk [] [] [] [] [] [] [] none 0 [] [])).2).scheduled
        = (AppState.mk [] [] [] [] [] [] [] none 0 [] []).scheduled
    ∧ ((addMedication 11
          (FormData.mk "Aspirin" "1 tablet" 2 ["8:00 AM", "13:00 AM"] 2 "")
          (AppState.mk [] [] [] [] [] [] [] none 0 [] [])).2).medications
        = (AppState.mk [] [] [] [] [] [] [] none 0 [] []).medications) :=
  ⟨⟨by decide, by decide⟩,
   add_medication_rejects_bad_time 11 _ _ "13:00 AM" (by decide) (by decide)⟩

/-! ## The lineage-cancelling fold (C5, C10) -/

theorem foldl_cancelScheduled (ids : List String) (st : AppState) :
    ids.foldl (fun s i => cancelScheduled i s) st
      = { st with scheduled :=
            st.scheduled.filter (fun e => !(ids.contains e.identifier)) } := by
  induction ids generalizing st with
  | nil => simp
  | cons i ids ih =>
    rw [List.foldl_cons, ih]
    unfold cancelScheduled
    simp only [List.filter_filter]
    congr 1
    apply List.filter_congr
    intro e _
    simp only [List.contains_cons, Bool.not_or, bne]
    rw [Bool.and_comm]

theorem cancelLineage_scheduled (sid : String) (st : AppState)
    (hnodup : (st.scheduled.map (fun e => e.identifier)).Nodup) :
    (cancelLineage sid st).scheduled
      = st.scheduled.filter (fun e => !(e.payload.snoozeId == some sid)) := by
  unfold cancelLineage
  rw [foldl_cancelScheduled]
  apply List.filter_congr
  intro e he
  have key : (((st.scheduled.filter (fun q => q.payload.snoozeId == some sid)).map
        (fun q => q.identifier)).contains e.identifier)
      = (e.payload.snoozeId == some sid) := by
    by_cases hmatch : e.payload.snoozeId = some sid
    · rw [hmatch]
      simp only [beq_self_eq_true]
      rw [List.contains_eq_any_beq, List.any_eq_true]
      refine ⟨e.identifier, ?_, by simp⟩
      exact List.mem_map.mpr ⟨e, List.mem_filter.mpr ⟨he, by simp [hmatch]⟩, rfl⟩
    · have hr : (e.payload.snoozeId == some sid) = false := by
        simp [hmatch]
      rw [hr, List.contains_eq_any_beq, List.any_eq_false]
      intro x hx
      obtain ⟨e2, he2, hid⟩ := List.mem_map.mp hx
      obtain ⟨he2mem, he2match⟩ := List.mem_filter.mp he2
      intro hbeq
      have hx2 : e.identifier = x := by simpa using hbeq
      have : e2 = e := List.inj_on_of_nodup_map hnodup he2mem he (hid.trans hx2.symm)
      rw [this] at he2match
      exact hmatch (by simpa using he2match)
  rw [key]

theorem cancelLineage_frame (sid : String) (st : AppState) :
    (cancelLineage sid st).presented = st.presented
    ∧ (cancelLineage sid st).notificationAlarms = st.notificationAlarms
    ∧ (cancelLineage sid st).alerts = st.alerts
    ∧ (cancelLineage sid st).stoppedSounds = st.stoppedSounds := by
  unfold cancelLineage
  rw [foldl_cancelScheduled]
  exact ⟨rfl, rfl, rfl, rfl⟩

/-- C5: the STOP action, on a payload carrying a snooze lineage
identifier, stops the player for the alert's identifier (no live handle
remains; an existing handle is stopped), cancels every scheduled registry
entry sharing that lineage identifier, dismisses the presented entry, and
surfaces the stop confirmation. -/
theorem stop_action_effects (data : Payload) (nid sid : String) (st : AppState)
    (hsid : data.snoozeId = some sid)
    (hnodup : (st.scheduled.map (fun e => e.identifier)).Nodup) :
    List.lookup nid (stopAction data nid st).notificationAlarms = none
    ∧ (∀ h, List.lookup nid st.notificationAlarms = some h →
        h ∈ (stopAction data nid st).stoppedSounds)
    ∧ (stopAction data nid st).scheduled
        = st.scheduled.filter (fun e => !(e.payload.snoozeId == some sid))
    ∧ (stopAction data nid st).presented = st.presented.filter (fun q => q != nid)
    ∧ stopConfirmAlert data.medicationName ∈ (stopAction data nid st).alerts := by
  have hs2sched : (dismissNotif nid (stopSpecificNotificationAlarm nid st)).scheduled
      = st.scheduled := stopSpecific_scheduled nid st
  have hs2nodup : ((dismissNotif nid (stopSpecificNotificationAlarm nid st)).scheduled.map
      (fun e => e.identifier)).Nodup := by rw [hs2sched]; exact hnodup
  refine ⟨?_, ?_, ?_, ?_, ?_⟩ <;> unfold stopAction <;> rw [hsid] <;> simp only [pushAlert]
  · rw [(cancelLineage_frame sid _).2.1]
    exact stopSpecific_lookup_self nid st
  · intro h hl
    rw [(cancelLineage_frame sid _).2.2.2]
    exact (stopSpecific_stops nid st hl).1
  · rw [cancelLineage_scheduled sid _ hs2nodup, hs2sched]
  · rw [(cancelLineage_frame sid _).1]
    simp only [dismissNotif]
    rw [stopSpecific_presented]
  · exact List.mem_cons_self _ _

/-- Witness for `stop_action_effects` on a two-entry registry where only
the lineage sibling shares the snooze identifier. -/
theorem stop_action_effects_witness :
    ((Payload.mk "Aspirin" "" "" 0 0 "" false false none (some "s") false none none).snoozeId
        = some "s"
      ∧ (((AppState.mk []
            [ScheduledEntry.mk "a" 10
              (Payload.mk "Aspirin" "" "" 0 0 "" false false none (some "s") false none none)
              true "MEDICATION_REMINDER",
             ScheduledEntry.mk "b" 20 (Payload.mk "" "" "" 0 0 "" false false none none false none none)
              true "MEDICATION_REMINDER"]
            ["a"] [("a", 3)] [3] [] [] none 4 [] []).scheduled.map
          (fun e => e.identifier)).Nodup))
    ∧ (List.lookup "a"
        (stopAction (Payload.mk "Aspirin" "" "" 0 0 "" false false none (some "s") false none none)
          "a"
          (AppState.mk []
            [ScheduledEntry.mk "a" 10
              (Payload.mk "Aspirin" "" "" 0 0 "" false false none (some "s") false none none)
              true "MEDICATION_REMINDER",
             ScheduledEntry.mk "b" 20 (Payload.mk "" "" "" 0 0 "" false false none none false none none)
              true "MEDICATION_REMINDER"]
            ["a"] [("a", 3)] [3] [] [] none 4 [] [])).notificationAlarms = none
    ∧ (∀ h, List.lookup "a"
          (AppState.mk []
            [ScheduledEntry.mk "a" 10
              (Payload.mk "Aspirin" "" "" 0 0 "" false false none (some "s") false none none)
              true "MEDICATION_REMINDER",
             ScheduledEntry.mk "b" 20 (Payload.mk "" "" "" 0 0 "" false false none none false none none)
              true "MEDICATION_REMINDER"]
            ["a"] [("a", 3)] [3] [] [] none 4 [] []).notificationAlarms = some h →
        h ∈ (stopAction (Payload.mk "Aspirin" "" "" 0 0 "" false false none (some "s") false none none)
          "a"
          (AppState.mk []
            [ScheduledEntry.mk "a" 10
              (Payload.mk "Aspirin" "" "" 0 0 "" false false none (some "s") false none none)
              true "MEDICATION_REMINDER",
             ScheduledEntry.mk "b" 20 (Payload.mk "" "" "" 0 0 "" false false none none false none none)
              true "MEDICATION_REMINDER"]
            ["a"] [("a", 3)] [3] [] [] none 4 [] [])).stoppedSounds)
    ∧ (stopAction (Payload.mk "Aspirin" "" "" 0 0 "" false false none (some "s") false none none)
          "a"
          (AppState.mk []
            [ScheduledEntry.mk "a" 10
              (Payload.mk "Aspirin" "" "" 0 0 "" false false none (some "s") false none none)
              true "MEDICATION_REMINDER",
             ScheduledEntry.mk "b" 20 (Payload.mk "" "" "" 0 0 "" false false none none false none none)
              true "MEDICATION_REMINDER"]
            ["a"] [("a", 3)] [3] [] [] none 4 [] [])).scheduled
        = (AppState.mk []
            [ScheduledEntry.mk "a" 10
              (Payload.mk "Aspirin" "" "" 0 0 "" false false none (some "s") false none none)
              true "MEDICATION_REMINDER",
             ScheduledEntry.mk "b" 20 (Payload.mk "" "" "" 0 0 "" false false none none false none none)
              true "MEDICATION_REMINDER"]
            ["a"] [("a", 3)] [3] [] [] none 4 [] []).scheduled.filter
            (fun e => !(e.payload.snoozeId == some "s"))
    ∧ (stopAction (Payload.mk "Aspirin" "" "" 0 0 "" false false none (some "s") false none none)
          "a"
          (AppState.mk []
            [ScheduledEntry.mk "a" 10
              (Payload.mk "Aspirin" "" "" 0 0 "" false false none (some "s") false none none)
              true "MEDICATION_REMINDER",
             ScheduledEntry.mk "b" 20 (Payload.mk "" "" "" 0 0 "" false false none none false none none)
              true "MEDICATION_REMINDER"]
            ["a"] [("a", 3)] [3] [] [] none 4 [] [])).presented
        = (AppState.mk []
            [ScheduledEntry.mk "a" 10
              (Payload.mk "Aspirin" "" "" 0 0 "" false false none (some "s") false none none)
              true "MEDICATION_REMINDER",
             ScheduledEntry.mk "b" 20 (Payload.mk "" "" "" 0 0 "" false false none none false none none)
              true "MEDICATION_REMINDER"]
            ["a"] [("a", 3)] [3] [] [] none 4 [] []).presented.filter (fun q => q != "a")
    ∧ stopConfirmAlert
        (Payload.mk "Aspirin" "" "" 0 0 "" false false none (some "s") false none none).medicationName
        ∈ (stopAction (Payload.mk "Aspirin" "" "" 0 0 "" false false none (some "s") false none none)
          "a"
          (AppState.mk []
            [ScheduledEntry.mk "a" 10
              (Payload.mk "Aspirin" "" "" 0 0 "" false false none (some "s") false none none)
              true "MEDICATION_REMINDER",
             ScheduledEntry.mk "b" 20 (Payload.mk "" "" "" 0 0 "" false false none none false none none)
              true "MEDICATION_REMINDER"]
            ["a"] [("a", 3)] [3] [] [] none 4 [] [])).alerts) :=
  ⟨⟨rfl, by decide⟩, stop_action_effects _ "a" "s" _ rfl (by decide)⟩

/-- C10: originally scheduled alerts carry no snooze lineage identifier
(and no snooze count), and the STOP action on a payload without a lineage
identifier cancels zero scheduled registry entries: the scheduled set is
left unchanged. -/
theorem stop_never_snoozed_frame (now : Nat) (med : Medication)
    (data : Payload) (nid : String) (st : AppState)
    (hno : data.snoozeId = none) :
    (∀ e ∈ scheduleNotifications now med,
        e.payload.snoozeId = none ∧ e.payload.snoozeCount = none)
    ∧ (stopAction data nid st).scheduled = st.scheduled := by
  constructor
  · intro e he
    obtain ⟨day, hday, he2⟩ := List.mem_flatMap.mp he
    obtain ⟨t, ht, hc⟩ := List.mem_filterMap.mp he2
    unfold candidateOf at hc
    cases hp : parseTime t with
    | none => rw [hp] at hc; cases hc
    | some x =>
      obtain ⟨h, m, p⟩ := x
      rw [hp] at hc
      simp only at hc
      split at hc
      · cases hc
        exact ⟨rfl, rfl⟩
      · cases hc
  · unfold stopAction
    rw [hno]
    simp only [pushAlert, dismissNotif]
    exact stopSpecific_scheduled nid st

/-- Witness for `stop_never_snoozed_frame` on a freshly expanded schedule
and a plain reminder payload. -/
theorem stop_never_snoozed_frame_witness :
    ((Payload.mk "Aspirin" "1 tablet" "8:00 AM" 1 2 "medication_reminder" true false
        none none false none none).snoozeId = none)
    ∧ ((∀ e ∈ scheduleNotifications 0
          (Medication.mk "7" "Aspirin" "1 tablet" 1 ["8:00 AM"] 2 0 ""),
        e.payload.snoozeId = none ∧ e.payload.snoozeCount = none)
    ∧ (stopAction
        (Payload.mk "Aspirin" "1 tablet" "8:00 AM" 1 2 "medication_reminder" true false
          none none false none none)
        "medication_7_0_8:00 AM"
        (AppState.mk [] [] [] [] [] [] [] none 0 [] [])).scheduled
      = (AppState.mk [] [] [] [] [] [] [] none 0 [] []).scheduled) :=
  ⟨rfl, stop_never_snoozed_frame 0 _ _ "medication_7_0_8:00 AM" _ rfl⟩

/-! ## Snooze-cap theorems (C1) -/

@[simp] theorem jsSnoozeCount_alarmPayload (p : Payload) (n : Nat) (sid nid : String) :
    jsSnoozeCount (snoozeAlarmPayload p n sid nid) = n := rfl

@[simp] theorem jsSnoozeCount_waitingPayload (p : Payload) (n : Nat) (sid nid : String) :
    jsSnoozeCount (snoozeWaitingPayload p n sid nid) = n := rfl

theorem lineage_count_min (now : Nat) (nid : String) (p0 : Payload)
    (h0 : jsSnoozeCount p0 = 0) (n : Nat) :
    jsSnoozeCount (lineagePayload now nid p0 n) = min n 7 := by
  induction n with
  | zero => simpa [lineagePayload] using h0
  | succ n ih =>
    show jsSnoozeCount (snoozeStepPayload now nid (lineagePayload now nid p0 n)) = _
    unfold snoozeStepPayload
    split
    · rename_i hge
      rw [ih] at hge ⊢
      omega
    · rename_i hlt
      rw [ih] at hlt
      rw [jsSnoozeCount_alarmPayload, ih]
      omega

/-- C1: snooze-count dynamics along a lineage.  Starting from a payload
without a snooze count, the count after `k` snooze presses is
`min k 7` — monotonically non-decreasing and never above 7; a snooze press
on a payload whose count has reached 7 is rejected with the max-snoozes
notice, adds no registry entry, and leaves the count at exactly 7; a press
on a payload below the cap succeeds, scheduling the waiting entry under
the same identifier with count incremented by exactly 1 and arming the
full-alarm upgrade carrying that same incremented count. -/
theorem snooze_lineage_cap (now now2 : Nat) (nid : String) (p0 : Payload)
    (st : AppState) (n : Nat) (h0 : jsSnoozeCount p0 = 0) :
    (∀ k, jsSnoozeCount (lineagePayload now nid p0 k) = min k 7)
    ∧ (∀ k, jsSnoozeCount (lineagePayload now nid p0 k)
        ≤ jsSnoozeCount (lineagePayload now nid p0 (k + 1)))
    ∧ (∀ k, jsSnoozeCount (lineagePayload now nid p0 k) ≤ 7)
    ∧ (∀ p : Payload, 7 ≤ jsSnoozeCount p →
        (snoozeAction now2 p nid st).2 = .maxReached
        ∧ (snoozeAction now2 p nid st).1.scheduled = st.scheduled
        ∧ maxSnoozeAlert ∈ (snoozeAction now2 p nid st).1.alerts)
    ∧ (∀ p : Payload, jsSnoozeCount p < 7 →
        (snoozeAction now2 p nid st).2 = .snoozed
        ∧ (∃ e ∈ (snoozeAction now2 p nid st).1.scheduled,
            e.identifier = nid ∧ jsSnoozeCount e.payload = jsSnoozeCount p + 1)
        ∧ (∃ tm ∈ (snoozeAction now2 p nid st).1.timers,
            tm.action = .snoozeUpgrade nid
              (snoozeAlarmPayload p (jsSnoozeCount p + 1) (snoozeLineageId now2 p) nid)))
    ∧ (7 ≤ jsSnoozeCount (lineagePayload now nid p0 n) →
        jsSnoozeCount (lineagePayload now nid p0 n) = 7) := by
  have hmin := lineage_count_min now nid p0 h0
  refine ⟨hmin, ?_, ?_, ?_, ?_, ?_⟩
  · intro k
    rw [hmin, hmin]
    omega
  · intro k
    rw [hmin]
    omega
  · intro p hge
    unfold snoozeAction scheduleSnoozeNotification
    rw [if_pos hge]
    refine ⟨rfl, ?_, List.mem_cons_self _ _⟩
    simp only [pushAlert]
    exact stopSpecific_scheduled nid st
  · intro p hlt
    unfold snoozeAction scheduleSnoozeNotification
    rw [if_neg (by omega)]
    refine ⟨rfl, ?_, ?_⟩
    · refine ⟨_, List.mem_append_right _ (List.mem_singleton.mpr rfl), rfl, ?_⟩
      rw [jsSnoozeCount_waitingPayload]
    · exact ⟨_, List.mem_cons_self _ _, rfl⟩
  · intro hge
    rw [hmin] at hge ⊢
    omega

/-- Witness for `snooze_lineage_cap`: the eight-press lineage from a fresh
reminder payload. -/
theorem snooze_lineage_cap_witness :
    jsSnoozeCount (Payload.mk "Aspirin" "1 tablet" "8:00 AM" 1 2 "medication_reminder"
        true false none none false none none) = 0
    ∧ ((∀ k, jsSnoozeCount (lineagePayload 9 "a"
          (Payload.mk "Aspirin" "1 tablet" "8:00 AM" 1 2 "medication_reminder"
            true false none none false none none) k) = min k 7)
    ∧ (∀ k, jsSnoozeCount (lineagePayload 9 "a"
          (Payload.mk "Aspirin" "1 tablet" "8:00 AM" 1 2 "medication_reminder"
            true false none none false none none) k)
        ≤ jsSnoozeCount (lineagePayload 9 "a"
          (Payload.mk "Aspirin" "1 tablet" "8:00 AM" 1 2 "medication_reminder"
            true false none none false none none) (k + 1)))
    ∧ (∀ k, jsSnoozeCount (lineagePayload 9 "a"
          (Payload.mk "Aspirin" "1 tablet" "8:00 AM" 1 2 "medication_reminder"
            true false none none false none none) k) ≤ 7)
    ∧ (∀ p : Payload, 7 ≤ jsSnoozeCount p →
        (snoozeAction 13 p "a" (AppState.mk [] [] [] [] [] [] [] none 0 [] [])).2 = .maxReached
        ∧ (snoozeAction 13 p "a" (AppState.mk [] [] [] [] [] [] [] none 0 [] [])).1.scheduled
            = (AppState.mk [] [] [] [] [] [] [] none 0 [] []).scheduled
        ∧ maxSnoozeAlert
            ∈ (snoozeAction 13 p "a" (AppState.mk [] [] [] [] [] [] [] none 0 [] [])).1.alerts)
    ∧ (∀ p : Payload, jsSnoozeCount p < 7 →
        (snoozeAction 13 p "a" (AppState.mk [] [] [] [] [] [] [] none 0 [] [])).2 = .snoozed
        ∧ (∃ e ∈ (snoozeAction 13 p "a" (AppState.mk [] [] [] [] [] [] [] none 0 [] [])).1.scheduled,
            e.identifier = "a" ∧ jsSnoozeCount e.payload = jsSnoozeCount p + 1)
        ∧ (∃ tm ∈ (snoozeAction 13 p "a" (AppState.mk [] [] [] [] [] [] [] none 0 [] [])).1.timers,
            tm.action = .snoozeUpgrade "a"
              (snoozeAlarmPayload p (jsSnoozeCount p + 1) (snoozeLineageId 13 p) "a")))
    ∧ (7 ≤ jsSnoozeCount (lineagePayload 9 "a"
          (Payload.mk "Aspirin" "1 tablet" "8:00 AM" 1 2 "medication_reminder"
            true false none none false none none) 8) →
        jsSnoozeCount (lineagePayload 9 "a"
          (Payload.mk "Aspirin" "1 tablet" "8:00 AM" 1 2 "medication_reminder"
            true false none none false none none) 8) = 7)) :=
  ⟨rfl, snooze_lineage_cap 9 13 "a" _ _ 8 rfl⟩

/-! ## Schedule Expander theorems (C4) -/

theorem candidateOf_valid (now : Nat) (med : Medication) (day : Nat) (t : String)
    (hv : validParse t = true) :
    candidateOf now med day t
      = if now < fireOf now day (timeMinD t)
        then some (expanderEntry med day t (fireOf now day (timeMinD t)))
        else none := by
  unfold candidateOf timeMinD timeMin
  cases hp : parseTime t with
  | none => unfold validParse at hv; rw [hp] at hv; cases hv
  | some x =>
    obtain ⟨h, m, p⟩ := x
    simp only [hp, Option.getD_some]

theorem flatMap_congr_mem {α β : Type} {l : List α} {f g : α → List β}
    (h : ∀ a ∈ l, f a = g a) : l.flatMap f = l.flatMap g := by
  induction l with
  | nil => rfl
  | cons a l ih =>
    rw [List.flatMap_cons, List.flatMap_cons, h a (List.mem_cons_self a l),
      ih (fun b hb => h b (List.mem_cons_of_mem a hb))]

theorem filter_flatMap_comm {α β : Type} (l : List α) (g : α → List β) (p : β → Bool) :
    (l.flatMap g).filter p = l.flatMap (fun a => (g a).filter p) := by
  induction l with
  | nil => rfl
  | cons a l ih => simp [List.flatMap_cons, List.filter_append, ih]

theorem map_flatMap_comm {α β γ : Type} (l : List α) (g : α → List β) (f : β → γ) :
    (l.flatMap g).map f = l.flatMap (fun a => (g a).map f) := by
  induction l with
  | nil => rfl
  | cons a l ih => simp [List.flatMap_cons, ih]

theorem filterMap_ite_eq_map_filter {α β : Type} (p : α → Prop) [DecidablePred p]
    (f : α → β) (l : List α) :
    (l.filterMap fun a => if p a then some (f a) else none)
      = (l.filter (fun a => decide (p a))).map f := by
  induction l with
  | nil => rfl
  | cons a l ih =>
    by_cases h : p a
    · simp [List.filterMap_cons, List.filter_cons, h, ih]
    · simp [List.filterMap_cons, List.filter_cons, h, ih]

theorem flatMap_const_length {α β : Type} (l : List α) (g : α → List β) (k : Nat)
    (h : ∀ a, (g a).length = k) : (l.flatMap g).length = l.length * k := by
  induction l with
  | nil => simp
  | cons a l ih =>
    rw [List.flatMap_cons, List.length_append, h, ih, List.length_cons,
      Nat.succ_mul, Nat.add_comm]

theorem countP_not_add {α : Type} (p : α → Bool) (l : List α) :
    l.countP p + l.countP (fun a => !p a) = l.length := by
  induction l with
  | nil => rfl
  | cons a l ih =>
    by_cases h : p a = true <;> simp [List.countP_cons, h] <;> omega

theorem candPairs_length (med : Medication) :
    (candPairs med).length = med.duration * med.scheduledTimes.length := by
  unfold candPairs
  rw [flatMap_const_length _ _ med.scheduledTimes.length (fun day => List.length_map _ _),
    List.length_range]

/-- The expander's output is exactly the future-filtered (day, time)
enumeration, mapped to entries — days outer, times inner, entry order
preserved. -/
theorem scheduleNotifications_eq (now : Nat) (med : Medication)
    (hv : ∀ t ∈ med.scheduledTimes, validParse t = true) :
    scheduleNotifications now med
      = ((candPairs med).filter (isFuture now)).map
          (fun q => expanderEntry med q.1 q.2 (fireOf now q.1 (timeMinD q.2))) := by
  unfold scheduleNotifications candPairs
  rw [filter_flatMap_comm, map_flatMap_comm]
  apply flatMap_congr_mem
  intro day _
  have h1 : med.scheduledTimes.filterMap (candidateOf now med day)
      = med.scheduledTimes.filterMap (fun t =>
          if now < fireOf now day (timeMinD t)
          then some (expanderEntry med day t (fireOf now day (timeMinD t)))
          else none) := by
    apply List.filterMap_congr
    intro t ht
    exact candidateOf_valid now med day t (hv t ht)
  rw [h1, filterMap_ite_eq_map_filter, List.filter_map, List.map_map]
  rfl

theorem pairwise_flatMap_of {α β : Type} {R : β → β → Prop} (l : List α) (g : α → List β)
    (hin : ∀ a ∈ l, (g a).Pairwise R)
    (hcross : l.Pairwise (fun a b => ∀ x ∈ g a, ∀ y ∈ g b, R x y)) :
    (l.flatMap g).Pairwise R := by
  induction l with
  | nil => simp
  | cons a l ih =>
    rw [List.flatMap_cons, List.pairwise_append]
    obtain ⟨hhead, htail⟩ := List.pairwise_cons.mp hcross
    refine ⟨hin a (List.mem_cons_self a l),
      ih (fun b hb => hin b (List.mem_cons_of_mem a hb)) htail, ?_⟩
    intro x hx y hy
    obtain ⟨b, hb, hyb⟩ := List.mem_flatMap.mp hy
    exact hhead b hb x hx y hyb

theorem candPairs_pairwise (now : Nat) (med : Medication)
    (hv : ∀ t ∈ med.scheduledTimes, validParse t = true)
    (hsorted : med.scheduledTimes.Pairwise (fun a b => timeMinD a ≤ timeMinD b)) :
    (candPairs med).Pairwise (fun q1 q2 =>
      fireOf now q1.1 (timeMinD q1.2) ≤ fireOf now q2.1 (timeMinD q2.2)) := by
  unfold candPairs
  apply pairwise_flatMap_of
  · intro day _
    rw [List.pairwise_map]
    refine hsorted.imp ?_
    intro a b hab
    dsimp only
    unfold fireOf
    omega
  · refine (List.pairwise_lt_range med.duration).imp ?_
    intro d1 d2 hlt x hx y hy
    obtain ⟨t1, ht1, he1⟩ := List.mem_map.mp hx
    obtain ⟨t2, ht2, he2⟩ := List.mem_map.mp hy
    obtain ⟨v1, hv1, hb1⟩ := validParse_timeMin (hv t1 ht1)
    subst he1
    subst he2
    dsimp only
    unfold timeMinD
    rw [hv1]
    unfold fireOf dayMs
    simp only [Option.getD_some]
    omega

/-- C4 counterexample: with the valid times entered as
["9:00 PM", "8:00 AM"] and duration 1, the expander emits the 9 PM
instant before the 8 AM instant — entry order is preserved, so the
produced sequence is not in ascending chronological order. -/
theorem schedule_expander_not_ascending :
    (∀ t ∈ (Medication.mk "m" "A" "1" 2 ["9:00 PM", "8:00 AM"] 1 0 "").scheduledTimes,
        validParse t = true)
    ∧ 1 ≤ (Medication.mk "m" "A" "1" 2 ["9:00 PM", "8:00 AM"] 1 0 "").duration
    ∧ (Medication.mk "m" "A" "1" 2 ["9:00 PM", "8:00 AM"] 1 0 "").scheduledTimes ≠ []
    ∧ (scheduleNotifications 0 (Medication.mk "m" "A" "1" 2 ["9:00 PM", "8:00 AM"] 1 0 "")).map
        (fun e => e.fireAtMs) = [75600000, 28800000]
    ∧ ¬ (((scheduleNotifications 0
          (Medication.mk "m" "A" "1" 2 ["9:00 PM", "8:00 AM"] 1 0 "")).map
        (fun e => e.fireAtMs)).Pairwise (fun a b => a ≤ b)) := by
  refine ⟨by decide, by decide, by decide, by decide, ?_⟩
  intro hpw
  have := List.rel_of_pairwise_cons
    (by
      have heq : (scheduleNotifications 0
          (Medication.mk "m" "A" "1" 2 ["9:00 PM", "8:00 AM"] 1 0 "")).map
          (fun e => e.fireAtMs) = [75600000, 28800000] := by decide
      rw [heq] at hpw
      exact hpw)
    (List.mem_singleton.mpr rfl)
  omega

/-- C4 as amended: for valid inputs the expander produces exactly
`duration * len(times)` entries minus the non-future candidates, walks
days as the outer loop and times as the inner loop preserving entry
order, and — provided the entered times are in ascending time-of-day
order — the produced fire instants are in ascending chronological
order. -/
theorem schedule_expander_count_order (now : Nat) (med : Medication)
    (hdur : 1 ≤ med.duration) (hne : med.scheduledTimes ≠ [])
    (hv : ∀ t ∈ med.scheduledTimes, validParse t = true)
    (hsorted : med.scheduledTimes.Pairwise (fun a b => timeMinD a ≤ timeMinD b)) :
    (scheduleNotifications now med).length
        = med.duration * med.scheduledTimes.length - nonFutureCount now med
    ∧ (scheduleNotifications now med).map
        (fun e => (e.payload.day, e.payload.scheduledTime))
        = ((candPairs med).filter (isFuture now)).map (fun q => (q.1 + 1, q.2))
    ∧ ((scheduleNotifications now med).map (fun e => e.fireAtMs)).Pairwise
        (fun a b => a ≤ b) := by
  have heq := scheduleNotifications_eq now med hv
  refine ⟨?_, ?_, ?_⟩
  · rw [heq, List.length_map]
    have htot := countP_not_add (isFuture now) (candPairs med)
    rw [← List.countP_eq_length_filter]
    unfold nonFutureCount
    rw [candPairs_length] at htot
    omega
  · rw [heq, List.map_map]
    rfl
  · rw [heq, List.map_map]
    rw [List.pairwise_map]
    exact (candPairs_pairwise now med hv hsorted).filter (isFuture now)

/-- Witness for `schedule_expander_count_order`: two ascending times over
two days at submission instant 0. -/
theorem schedule_expander_count_order_witness :
    (1 ≤ (Medication.mk "m" "Aspirin" "1 tablet" 2 ["8:00 AM", "9:00 PM"] 2 0 "").duration
      ∧ (Medication.mk "m" "Aspirin" "1 tablet" 2 ["8:00 AM", "9:00 PM"] 2 0 "").scheduledTimes ≠ []
      ∧ (∀ t ∈ (Medication.mk "m" "Aspirin" "1 tablet" 2 ["8:00 AM", "9:00 PM"] 2 0 "").scheduledTimes,
          validParse t = true)
      ∧ (Medication.mk "m" "Aspirin" "1 tablet" 2
          ["8:00 AM", "9:00 PM"] 2 0 "").scheduledTimes.Pairwise
          (fun a b => timeMinD a ≤ timeMinD b))
    ∧ ((scheduleNotifications 0 (Medication.mk "m" "Aspirin" "1 tablet" 2
          ["8:00 AM", "9:00 PM"] 2 0 "")).length
        = (Medication.mk "m" "Aspirin" "1 tablet" 2 ["8:00 AM", "9:00 PM"] 2 0 "").duration
            * (Medication.mk "m" "Aspirin" "1 tablet" 2
                ["8:00 AM", "9:00 PM"] 2 0 "").scheduledTimes.length
          - nonFutureCount 0 (Medication.mk "m" "Aspirin" "1 tablet" 2 ["8:00 AM", "9:00 PM"] 2 0 "")
    ∧ (scheduleNotifications 0 (Medication.mk "m" "Aspirin" "1 tablet" 2
          ["8:00 AM", "9:00 PM"] 2 0 "")).map
        (fun e => (e.payload.day, e.payload.scheduledTime))
        = ((candPairs (Medication.mk "m" "Aspirin" "1 tablet" 2
            ["8:00 AM", "9:00 PM"] 2 0 "")).filter (isFuture 0)).map (fun q => (q.1 + 1, q.2))
    ∧ ((scheduleNotifications 0 (Medication.mk "m" "Aspirin" "1 tablet" 2
          ["8:00 AM", "9:00 PM"] 2 0 "")).map (fun e => e.fireAtMs)).Pairwise
        (fun a b => a ≤ b)) :=
  ⟨⟨by decide, by decide, by decide, by decide⟩,
   schedule_expander_count_order 0 _ (by decide) (by decide) (by decide) (by decide)⟩

end MedAlarm
